import Mathlib

/-!
Shallow embedding of `src/server.js` (han-office-linebot).

The program is a webhook handler: `handleEvent` classifies an inbound
messaging event and dispatches at most one reply via the platform client.
External effects are modelled by an `Env` record of oracles: the photo
API (`searchAll` for the list-all call, `search` keyed by the search
term), the random draws used to pick a photo (`randAll`, `randTag`,
`randDirect`, `randKeyword`, `randFree`, each giving the raw random
number whose value modulo the list length is the chosen index, matching
`Math.floor(Math.random() * len)`), the quote pick, and the four
generative-model calls (each `Except Unit String`, `error` standing for
a thrown call error and `ok raw` for the raw response text).

The dispatch trace is a `List ReplyCall`: each `client.replyMessage`
call site contributes one element, a suppressed event contributes none.
JS strings are modelled as Lean `String` over `Char`; `startsWith`,
first-occurrence `replace` and substring containment are re-implemented
on the character list (`jsStartsWith`, `jsReplaceFirst`,
`containsSubstr`), and `k.length` (UTF-16 code-unit count) as
`utf16Len`.  A `response.data` that is null/undefined is modelled as the
empty list, which the source treats identically (`!photos ||
photos.length === 0`).
-/

/-- A photo record as returned by the photo API: an object carrying an
optional `path` field (absent field modelled as `none`). -/
structure PhotoRecord where
  path : Option String
deriving DecidableEq, Repr

/-- Transport failure categories, from the axios error object shape:
`error.response` present (an HTTP error status), `error.request`
present with no response, anything else. -/
inductive FetchError where
  | errorStatus (status : Nat)
  | noResponse
  | other
deriving DecidableEq, Repr

deriving instance DecidableEq for Except

/-- One outbound message payload: image (originalContentUrl,
previewImageUrl) or text. -/
inductive Msg where
  | image (originalContentUrl previewImageUrl : String)
  | text (body : String)
deriving DecidableEq, Repr

/-- One `client.replyMessage(replyToken, messages)` dispatch. -/
structure ReplyCall where
  token : String
  messages : List Msg
deriving DecidableEq, Repr

/-- The inbound webhook event fields consulted by `handleEvent`. -/
structure InboundEvent where
  eventType : String
  messageType : String
  sourceType : String
  text : String
  replyToken : String
deriving DecidableEq, Repr

/-- Static configuration: the photo CDN base URL (`PHOTO_BASE_URL`). -/
structure Config where
  photoBaseUrl : String
deriving DecidableEq, Repr

/-- Oracles for the external world as observed by one event. -/
structure Env where
  searchAll : Except FetchError (List PhotoRecord)
  search : String → Except FetchError (List PhotoRecord)
  randAll : Nat
  randTag : Nat
  randDirect : Nat
  randKeyword : String → Nat
  randFree : String → Nat
  quoteRand : Nat
  quotes : List String
  geminiTagKeywords : Except Unit String
  geminiFreeKeywords : Except Unit String
  geminiTagStyle : Except Unit String
  geminiFreeStyle : Except Unit String

/-- JS `String.prototype.startsWith`: prefix test on the code units,
equivalently on characters for well-formed data. -/
def jsStartsWith (s pre : String) : Bool :=
  pre.data.isPrefixOf s.data

/-- First-occurrence replacement on character lists, the semantics of
JS `String.prototype.replace` with a string pattern. -/
def replaceFirstChars (pat repl : List Char) : List Char → List Char
  | [] => if pat.isEmpty then repl else []
  | c :: cs =>
    if pat.isPrefixOf (c :: cs) then repl ++ (c :: cs).drop pat.length
    else c :: replaceFirstChars pat repl cs

/-- JS `s.replace(pat, repl)` (string pattern: first occurrence only). -/
def jsReplaceFirst (s pat repl : String) : String :=
  ⟨replaceFirstChars pat.data repl.data s.data⟩

/-- Substring scan on character lists (JS `String.prototype.includes`). -/
def containsSub (pat : List Char) : List Char → Bool
  | [] => pat.isEmpty
  | c :: cs => pat.isPrefixOf (c :: cs) || containsSub pat cs

/-- JS `s.includes(pat)`. -/
def containsSubstr (s pat : String) : Bool :=
  containsSub pat.data s.data

/-- JS `s.trim()`: strip leading and trailing whitespace characters. -/
def jsTrim (s : String) : String :=
  ⟨((s.data.dropWhile Char.isWhitespace).reverse.dropWhile Char.isWhitespace).reverse⟩

/-- JS `s.substring(n)`: drop the first `n` code units (the lead-ins
cut here are 3 one-unit characters, so a character-level drop agrees). -/
def jsDrop (s : String) (n : Nat) : String :=
  ⟨s.data.drop n⟩

/-- Split a character list on a separator character; JS
`"".split(",")` is `[""]`, so the empty list maps to one empty piece. -/
def splitCommaChars : List Char → List (List Char)
  | [] => [[]]
  | c :: cs =>
    if c = ',' then [] :: splitCommaChars cs
    else
      match splitCommaChars cs with
      | [] => [[c]]
      | h :: t => (c :: h) :: t

/-- JS `s.split(',')`. -/
def jsSplitComma (s : String) : List String :=
  (splitCommaChars s.data).map (fun l => ⟨l⟩)

/-- JS `s.length`: the UTF-16 code-unit count (astral characters count
twice). -/
def utf16Len (s : String) : Nat :=
  s.data.foldl (fun n c => n + (if c.toNat < 0x10000 then 1 else 2)) 0

/-- One character of the regex class `[一-龥0-9]`. -/
def isTagChar (c : Char) : Bool :=
  (0x4e00 ≤ c.toNat && c.toNat ≤ 0x9fa5) || (0x30 ≤ c.toNat && c.toNat ≤ 0x39)

/-- `/^[一-龥0-9]+$/.test k`: non-empty and every character in
the class (a surrogate code unit is outside the class, and so is the
astral character it encodes, so the character-level test agrees). -/
def tagCharsOnly (k : String) : Bool :=
  !k.data.isEmpty && k.data.all isTagChar

/-- `secureImageUrl` construction (lines 156, 285, 398, 473, 545):
keep an `https://` URL, otherwise rewrite the first `http://`. -/
def secureUrl (url : String) : String :=
  if jsStartsWith url "https://" then url
  else jsReplaceFirst url "http://" "https://"

/-- The validity test applied to every selected record before building
an image reply: `randomPhoto.path` present, truthy and starting with
`/Photos/` (lines 148, 279, 388, 468, 538; an empty-string path is
falsy in JS and also fails the prefix test, so one prefix test on the
present value is faithful). -/
def validPath : Option String → Bool
  | none => false
  | some p => jsStartsWith p "/Photos/"

/-- `photos[Math.floor(Math.random() * photos.length)]`: the oracle's
raw draw reduced modulo the length; the default is never reached on a
non-empty list. -/
def pick (photos : List PhotoRecord) (r : Nat) : PhotoRecord :=
  photos.getD (r % photos.length) ⟨none⟩

/-- The startup fallback quote (line 38). -/
def defaultFallbackQuote : String := "莫忘世上苦人多"

/-- `getRandomQuote` (lines 72-78). -/
def getRandomQuote (quotes : List String) (r : Nat) : String :=
  if quotes.length = 0 then defaultFallbackQuote
  else quotes.getD (r % quotes.length) defaultFallbackQuote

/-- Tag extraction (lines 115-123): text after the lead-in `院長，` or
`院長 ` (3 code units), trimmed; `none` when neither lead-in matches. -/
def tagToSearch (m : String) : Option String :=
  if jsStartsWith m "院長，" then some (jsTrim (jsDrop m 3))
  else if jsStartsWith m "院長 " then some (jsTrim (jsDrop m 3))
  else none

/-- JS truthiness of the `tagToSearch` variable at line 189: `null` and
the empty string are falsy. -/
def jsTruthy : Option String → Bool
  | none => false
  | some s => s ≠ ""

/-- The fixed extra text appended to an image reply for the special
topic `罷免` (lines 299 and 413, identical literals). -/
def recallSignText : String :=
  "人家都說好東西要跟好朋友分享，我體驗過被罷免的感覺，這是一種孤單的感受，就像生日自己吃蛋糕，不好，孤單，寂寞，太邊緣。\n因此，我們要懂得分享，分享被罷免的經驗給同黨的同志，所以各位國人同胞，要讓我們國民黨的立委們，跟我一樣，有著被罷免的美好經驗，請一定要站出來連署，讓我們國民黨的立委們，一起享受被罷免的好滋味！\n\n立刻參與二階段罷免連署！\nhttps://babababa.tw/\n\n最新罷免進度：\nhttps://amaochen0110.github.io/Unseat/"

/-- Error text selection for the `院長好` request (lines 165-174). -/
def greetingErrorMessage : FetchError → String
  | .errorStatus _ => "抱歉，無法從圖片庫取得資料。"
  | .noResponse => "抱歉，無法連線到圖片庫。"
  | .other => "抱歉，處理「院長好」請求時發生錯誤。"

/-- Error text selection for the initial tag search (lines 426-435). -/
def tagSearchErrorMessage (tag : String) : FetchError → String
  | .errorStatus _ => "抱歉，搜尋標籤「" ++ tag ++ "」時無法從圖片庫取得資料。"
  | .noResponse => "抱歉，搜尋標籤「" ++ tag ++ "」時無法連線到圖片庫。"
  | .other => "抱歉，搜尋標籤「" ++ tag ++ "」時發生錯誤。"

/-- The `院長好` branch (lines 126-176): list-all fetch; fetch error or
empty list yield fixed text; otherwise a random record is validated and
dispatched as a single image. -/
def greetingReply (cfg : Config) (env : Env) (tok : String) : List ReplyCall :=
  match env.searchAll with
  | .error e => [⟨tok, [Msg.text (greetingErrorMessage e)]⟩]
  | .ok photos =>
    if photos.length = 0 then
      [⟨tok, [Msg.text "院長這邊現在沒有照片啦！"]⟩]
    else
      let p := pick photos env.randAll
      if validPath p.path then
        let u := secureUrl (cfg.photoBaseUrl ++ p.path.getD "")
        [⟨tok, [Msg.image u u]⟩]
      else
        [⟨tok, [Msg.text "抱歉，隨機選到的照片路徑格式錯誤。"]⟩]

/-- The `金句`/`語錄` branch (lines 177-186). -/
def quoteReply (env : Env) (tok : String) : List ReplyCall :=
  [⟨tok, [Msg.text (getRandomQuote env.quotes env.quoteRand)]⟩]

/-- The image reply built on the tag path, keyed on the original tag
(lines 290-304 and 403-420): image plus the fixed recall text iff the
tag equals `罷免` exactly. -/
def tagImageMessages (tok t u : String) : List ReplyCall :=
  if t = "罷免" then [⟨tok, [Msg.image u u, Msg.text recallSignText]⟩]
  else [⟨tok, [Msg.image u u]⟩]

/-- Keyword filter of the tag-expansion path (lines 236-247): non-empty,
code-unit length in 1..6, not containing `韓國瑜`, only CJK ideographs
and digits. -/
def tagKeywordFilter (k : String) : Bool :=
  if k.data.isEmpty then false
  else if utf16Len k < 1 || 6 < utf16Len k then false
  else if containsSubstr k "韓國瑜" then false
  else if !tagCharsOnly k then false
  else true

/-- Tag-mode post-processing of the raw model text (lines 229-248):
trim, empty means no keywords, else split on commas, trim each, filter,
keep the first three. -/
def parseTagKeywords (raw : String) : List String :=
  let t := jsTrim raw
  if t = "" then []
  else (((jsSplitComma t).map jsTrim).filter tagKeywordFilter).take 3

/-- The candidate keywords of the tag path (lines 225-261): a failed
model call yields the empty list. -/
def tagKeywords (env : Env) : List String :=
  match env.geminiTagKeywords with
  | .error _ => []
  | .ok raw => parseTagKeywords raw

/-- Free-text post-processing of the raw model text (lines 501-516):
trim, split on commas, trim each, keep truthy entries, then drop exact
`韓國瑜` matches.  No truncation is applied. -/
def parseFreeKeywords (raw : String) : List String :=
  let t := jsTrim raw
  if t = "" then []
  else ((((jsSplitComma t).map jsTrim).filter (fun k => !(k = ""))).filter
    (fun k => !(k = "") && !(k = "韓國瑜")))

/-- The candidate keywords of the free-text path (lines 496-520). -/
def freeKeywords (env : Env) : List String :=
  match env.geminiFreeKeywords with
  | .error _ => []
  | .ok raw => parseFreeKeywords raw

/-- The trimmed style-model line (lines 339-355, 593-607): `none` on a
call error or a blank/whitespace-only generation. -/
def styleLine : Except Unit String → Option String
  | .error _ => none
  | .ok raw => let t := jsTrim raw; if t = "" then none else some t

/-- Final fallback of the tag path (lines 318-365): the generated line
as a single text payload, or the fixed template on error or blank
generation. -/
def tagStyleFallback (env : Env) (tok t : String) : List ReplyCall :=
  match styleLine env.geminiTagStyle with
  | some line => [⟨tok, [Msg.text line]⟩]
  | none => [⟨tok, [Msg.text ("院長沒有在跟你" ++ t ++ "的啦！")]⟩]

/-- The sequential keyword-search loop of the tag path (lines 263-313):
a search error, an empty result or an invalid selected path moves to the
next keyword; a valid selection dispatches immediately, keyed on the
original tag; exhaustion falls to the style responder (lines 315-366). -/
def tagKeywordLoop (cfg : Config) (env : Env) (tok t : String) :
    List String → List ReplyCall
  | [] => tagStyleFallback env tok t
  | kw :: rest =>
    match env.search kw with
    | .error _ => tagKeywordLoop cfg env tok t rest
    | .ok photos =>
      if photos.length = 0 then tagKeywordLoop cfg env tok t rest
      else
        let p := pick photos (env.randKeyword kw)
        if validPath p.path then
          tagImageMessages tok t (secureUrl (cfg.photoBaseUrl ++ p.path.getD ""))
        else tagKeywordLoop cfg env tok t rest

/-- The tag-command path (lines 189-440): initial search by tag; a
fetch error is terminal with a categorized text; a non-empty result
dispatches a validated random record (fixed error text when the path is
invalid); an empty result enters the keyword-expansion fallback. -/
def tagReply (cfg : Config) (env : Env) (tok t : String) : List ReplyCall :=
  match env.search t with
  | .error e => [⟨tok, [Msg.text (tagSearchErrorMessage t e)]⟩]
  | .ok photos =>
    if photos.length = 0 then
      tagKeywordLoop cfg env tok t (tagKeywords env)
    else
      let p := pick photos env.randTag
      if validPath p.path then
        tagImageMessages tok t (secureUrl (cfg.photoBaseUrl ++ p.path.getD ""))
      else
        [⟨tok, [Msg.text "抱歉，隨機選到的照片路徑格式錯誤。"]⟩]

/-- Final fallback of the free-text path (lines 571-617). -/
def freeStyleFallback (env : Env) (tok m : String) : List ReplyCall :=
  match styleLine env.geminiFreeStyle with
  | some line => [⟨tok, [Msg.text line]⟩]
  | none => [⟨tok, [Msg.text ("院長沒有在跟你" ++ m ++ "的啦！")]⟩]

/-- The sequential keyword-search loop of the free-text path (lines
522-569): like the tag loop but always a single image, no special-topic
rule; exhaustion falls to the style responder. -/
def freeKeywordLoop (cfg : Config) (env : Env) (tok m : String) :
    List String → List ReplyCall
  | [] => freeStyleFallback env tok m
  | kw :: rest =>
    match env.search kw with
    | .error _ => freeKeywordLoop cfg env tok m rest
    | .ok photos =>
      if photos.length = 0 then freeKeywordLoop cfg env tok m rest
      else
        let p := pick photos (env.randFree kw)
        if validPath p.path then
          let u := secureUrl (cfg.photoBaseUrl ++ p.path.getD "")
          [⟨tok, [Msg.image u u]⟩]
        else freeKeywordLoop cfg env tok m rest

/-- The stage entered when the direct free-text search yields nothing
(lines 483-617): keyword extraction, the search loop, then the style
fallback. -/
def freeKeywordStage (cfg : Config) (env : Env) (tok m : String) : List ReplyCall :=
  freeKeywordLoop cfg env tok m (freeKeywords env)

/-- The free-text individual-chat path (lines 444-628): direct search
with the raw message as the term, a transport failure swallowed into the
empty list (lines 452-459); a valid selection from a non-empty result is
a single image; an invalid path or no result falls through to the
keyword stage. -/
def freeTextReply (cfg : Config) (env : Env) (tok m : String) : List ReplyCall :=
  let photos : List PhotoRecord :=
    match env.search m with
    | .error _ => []
    | .ok ps => ps
  if photos.length = 0 then freeKeywordStage cfg env tok m
  else
    let p := pick photos env.randDirect
    if validPath p.path then
      let u := secureUrl (cfg.photoBaseUrl ++ p.path.getD "")
      [⟨tok, [Msg.image u u]⟩]
    else freeKeywordStage cfg env tok m

/-- The command dispatch on the trimmed text (lines 115-634): greeting
literal, the two quote literals, a truthy extracted tag, else free text
for an individual chat and suppression for a group or room. -/
def handleTextMessage (cfg : Config) (env : Env) (ev : InboundEvent) :
    List ReplyCall :=
  let m := jsTrim ev.text
  if m = "院長好" then greetingReply cfg env ev.replyToken
  else if m = "院長，金句" ∨ m = "院長，語錄" then quoteReply env ev.replyToken
  else if jsTruthy (tagToSearch m) then
    tagReply cfg env ev.replyToken ((tagToSearch m).getD "")
  else if ev.sourceType = "user" then freeTextReply cfg env ev.replyToken m
  else []

/-- `handleEvent` (lines 104-635): non-text events and unsupported
source kinds are suppressed before any classification. -/
def handleEvent (cfg : Config) (env : Env) (ev : InboundEvent) : List ReplyCall :=
  if ev.eventType = "message" ∧ ev.messageType = "text" then
    if ev.sourceType = "user" ∨ ev.sourceType = "group" ∨ ev.sourceType = "room" then
      handleTextMessage cfg env ev
    else []
  else []

/-- The guard of lines 106-113: a message event carrying text from one
of the three supported source kinds. -/
def isTextFromSupported (ev : InboundEvent) : Prop :=
  ev.eventType = "message" ∧ ev.messageType = "text" ∧
  (ev.sourceType = "user" ∨ ev.sourceType = "group" ∨ ev.sourceType = "room")

instance (ev : InboundEvent) : Decidable (isTextFromSupported ev) := by
  unfold isTextFromSupported; infer_instance

/-- A text event that reaches line 629: group or room source, no
command literal matched, and no truthy extracted tag. -/
def isSuppressedText (ev : InboundEvent) : Prop :=
  ev.sourceType ≠ "user" ∧ jsTrim ev.text ≠ "院長好" ∧
  jsTrim ev.text ≠ "院長，金句" ∧ jsTrim ev.text ≠ "院長，語錄" ∧
  jsTruthy (tagToSearch (jsTrim ev.text)) = false

instance (ev : InboundEvent) : Decidable (isSuppressedText ev) := by
  unfold isSuppressedText; infer_instance

/-- A tag-command event: a supported text event whose trimmed text is
neither command literal and carries the truthy extracted tag `t`. -/
def isTagEvent (ev : InboundEvent) (t : String) : Prop :=
  ev.eventType = "message" ∧ ev.messageType = "text" ∧
  (ev.sourceType = "user" ∨ ev.sourceType = "group" ∨ ev.sourceType = "room") ∧
  jsTrim ev.text ≠ "院長好" ∧ jsTrim ev.text ≠ "院長，金句" ∧
  jsTrim ev.text ≠ "院長，語錄" ∧ tagToSearch (jsTrim ev.text) = some t ∧ t ≠ ""

instance (ev : InboundEvent) (t : String) : Decidable (isTagEvent ev t) := by
  unfold isTagEvent; infer_instance

/-- A free-text individual-chat event: a user text event matching no
command literal and carrying no truthy extracted tag. -/
def isFreeTextUserEvent (ev : InboundEvent) : Prop :=
  ev.eventType = "message" ∧ ev.messageType = "text" ∧ ev.sourceType = "user" ∧
  jsTrim ev.text ≠ "院長好" ∧ jsTrim ev.text ≠ "院長，金句" ∧
  jsTrim ev.text ≠ "院長，語錄" ∧ jsTruthy (tagToSearch (jsTrim ev.text)) = false

instance (ev : InboundEvent) : Decidable (isFreeTextUserEvent ev) := by
  unfold isFreeTextUserEvent; infer_instance

/-- A candidate keyword wins the tag loop iff its search succeeds with
a non-empty list and the selected record has a valid path. -/
def keywordHit (env : Env) (kw : String) : Bool :=
  match env.search kw with
  | .error _ => false
  | .ok photos =>
    if photos.length = 0 then false
    else validPath (pick photos (env.randKeyword kw)).path

/-- The image URL the tag loop builds for a winning candidate. -/
def hitUrl (cfg : Config) (env : Env) (kw : String) : String :=
  match env.search kw with
  | .error _ => ""
  | .ok photos =>
    secureUrl (cfg.photoBaseUrl ++ (pick photos (env.randKeyword kw)).path.getD "")

/-- A record whose path passes the prefix validation. -/
def samplePhoto : PhotoRecord := ⟨some "/Photos/a.jpg"⟩

/-- A record whose path fails the prefix validation. -/
def badPhoto : PhotoRecord := ⟨some "bad.jpg"⟩

/-- A neutral oracle bundle for concrete runs: one valid photo on the
list-all call, empty results on every search, failing model calls. -/
def baseEnv : Env where
  searchAll := .ok [samplePhoto]
  search := fun _ => .ok []
  randAll := 0
  randTag := 0
  randDirect := 0
  randKeyword := fun _ => 0
  randFree := fun _ => 0
  quoteRand := 0
  quotes := ["Q"]
  geminiTagKeywords := .error ()
  geminiFreeKeywords := .error ()
  geminiTagStyle := .error ()
  geminiFreeStyle := .error ()

/-- A concrete tag-command event for the tag `風`. -/
def evTagW : InboundEvent := ⟨"message", "text", "user", "院長，風", "tok"⟩

/-- Oracles where the tag search is empty, the expander yields
`天氣` then `晴天`, the first candidate fails with a transport error
and the second returns one valid record. -/
def envTagW : Env := { baseEnv with
  geminiTagKeywords := .ok " 天氣,晴天 "
  search := fun k =>
    if k = "天氣" then .error .noResponse
    else if k = "晴天" then .ok [samplePhoto] else .ok [] }

/-- A greeting-command event: a supported text event whose trimmed
text is exactly the greeting literal. -/
def isGreetingEvent (ev : InboundEvent) : Prop :=
  isTextFromSupported ev ∧ jsTrim ev.text = "院長好"

instance (ev : InboundEvent) : Decidable (isGreetingEvent ev) := by
  unfold isGreetingEvent; infer_instance

/-- Every image payload in the trace carries identical original and
preview URLs built as `secureUrl (photoBaseUrl ++ path)` from a
`/Photos/`-prefixed path. -/
def imageCallsValid (cfg : Config) (calls : List ReplyCall) : Prop :=
  ∀ call ∈ calls, ∀ msg ∈ call.messages, ∀ u v, msg = Msg.image u v →
    v = u ∧ ∃ p, jsStartsWith p "/Photos/" = true ∧
      u = secureUrl (cfg.photoBaseUrl ++ p)

/-- Free-text oracles returning eleven comma-separated candidates, the
first of which strictly contains the denylisted phrase. -/
def envFreeKWW : Env := { baseEnv with
  geminiFreeKeywords := .ok "韓國瑜萬歲,甲,乙,丙,丁,戊,己,庚,辛,壬,癸" }

/-- Oracles where every search is empty, the tag expander fails and the
style model returns a padded line. -/
def envStyleW : Env := { baseEnv with geminiTagStyle := .ok " 金句 " }

/-- Oracles where the search for the tag `風` fails with an error
status. -/
def envTagErrW : Env := { baseEnv with
  search := fun k => if k = "風" then .error (.errorStatus 500) else .ok [] }

/-- A concrete unmatched free-text event from an individual chat. -/
def evFreeW : InboundEvent := ⟨"message", "text", "user", " hello ", "tok"⟩

/-- Oracles where the direct free-text search for `hello` fails with no
response. -/
def envFreeErrW : Env := { baseEnv with
  search := fun k => if k = "hello" then .error .noResponse else .ok [] }

/-- A concrete greeting-command event. -/
def evGreetingW : InboundEvent := ⟨"message", "text", "user", " 院長好 ", "tok"⟩

/-- A concrete tag-command event for the sentinel tag `罷免`. -/
def evRecallW : InboundEvent := ⟨"message", "text", "group", "院長，罷免", "tok"⟩

/-- Oracles where the search for `罷免` returns one valid record. -/
def envRecallW : Env := { baseEnv with
  search := fun k => if k = "罷免" then .ok [samplePhoto] else .ok [] }

/-- A concrete group event whose text is a lead-in followed only by
whitespace. -/
def evEmptyTagW : InboundEvent := ⟨"message", "text", "room", "院長，  ", "tok"⟩

theorem greetingReply_len (cfg : Config) (env : Env) (tok : String) :
    (greetingReply cfg env tok).length = 1 := by
  unfold greetingReply
  rcases env.searchAll with e | photos
  · rfl
  · dsimp only
    split
    · rfl
    · split <;> rfl

theorem tagImageMessages_len (tok t u : String) :
    (tagImageMessages tok t u).length = 1 := by
  unfold tagImageMessages
  split <;> rfl

theorem tagStyleFallback_len (env : Env) (tok t : String) :
    (tagStyleFallback env tok t).length = 1 := by
  unfold tagStyleFallback
  rcases styleLine env.geminiTagStyle with _ | l <;> rfl

theorem tagKeywordLoop_len (cfg : Config) (env : Env) (tok t : String)
    (ks : List String) : (tagKeywordLoop cfg env tok t ks).length = 1 := by
  induction ks with
  | nil => exact tagStyleFallback_len env tok t
  | cons kw rest ih =>
    unfold tagKeywordLoop
    rcases env.search kw with e | photos
    · exact ih
    · dsimp only
      split
      · exact ih
      · split
        · exact tagImageMessages_len ..
        · exact ih

theorem tagReply_len (cfg : Config) (env : Env) (tok t : String) :
    (tagReply cfg env tok t).length = 1 := by
  unfold tagReply
  rcases env.search t with e | photos
  · rfl
  · dsimp only
    split
    · exact tagKeywordLoop_len ..
    · split
      · exact tagImageMessages_len ..
      · rfl

theorem freeStyleFallback_len (env : Env) (tok m : String) :
    (freeStyleFallback env tok m).length = 1 := by
  unfold freeStyleFallback
  rcases styleLine env.geminiFreeStyle with _ | l <;> rfl

theorem freeKeywordLoop_len (cfg : Config) (env : Env) (tok m : String)
    (ks : List String) : (freeKeywordLoop cfg env tok m ks).length = 1 := by
  induction ks with
  | nil => exact freeStyleFallback_len env tok m
  | cons kw rest ih =>
    unfold freeKeywordLoop
    rcases env.search kw with e | photos
    · exact ih
    · dsimp only
      split
      · exact ih
      · split
        · rfl
        · exact ih

theorem freeKeywordStage_len (cfg : Config) (env : Env) (tok m : String) :
    (freeKeywordStage cfg env tok m).length = 1 :=
  freeKeywordLoop_len ..

theorem freeTextReply_len (cfg : Config) (env : Env) (tok m : String) :
    (freeTextReply cfg env tok m).length = 1 := by
  unfold freeTextReply
  dsimp only
  split
  · exact freeKeywordStage_len ..
  · split
    · rfl
    · exact freeKeywordStage_len ..

theorem handleTextMessage_len (cfg : Config) (env : Env) (ev : InboundEvent) :
    (handleTextMessage cfg env ev).length =
      if isSuppressedText ev then 0 else 1 := by
  unfold handleTextMessage
  dsimp only
  split
  · next h1 => rw [if_neg (fun hs => hs.2.1 h1), greetingReply_len]
  · next h1 =>
    split
    · next h2 =>
      rcases h2 with h2 | h2
      · rw [if_neg (fun hs => hs.2.2.1 h2)]; rfl
      · rw [if_neg (fun hs => hs.2.2.2.1 h2)]; rfl
    · next h2 =>
      split
      · next h3 =>
        rw [if_neg (fun hs => by rw [hs.2.2.2.2] at h3; exact Bool.false_ne_true h3),
          tagReply_len]
      · next h3 =>
        split
        · next h4 => rw [if_neg (fun hs => hs.1 h4), freeTextReply_len]
        · next h4 =>
          rw [if_pos ?_]
          · rfl
          · exact ⟨h4, h1, fun h => h2 (Or.inl h), fun h => h2 (Or.inr h),
              Bool.not_eq_true _ ▸ Bool.of_not_eq_true h3⟩

/-- C1: for every inbound event the handler dispatches at most one
reply call; a text event from a supported source kind that is not
suppressed yields exactly one dispatched reply, while non-text events,
unsupported source kinds and unmatched group/room text yield none. -/
theorem handleEvent_dispatch_count (cfg : Config) (env : Env) (ev : InboundEvent) :
    (handleEvent cfg env ev).length =
      if isTextFromSupported ev ∧ ¬ isSuppressedText ev then 1 else 0 := by
  unfold handleEvent
  split
  · next h1 =>
    split
    · next h2 =>
      rw [handleTextMessage_len]
      by_cases hs : isSuppressedText ev
      · rw [if_pos hs, if_neg (fun hc => hc.2 hs)]
      · rw [if_neg hs, if_pos ⟨⟨h1.1, h1.2, h2⟩, hs⟩]
    · next h2 => rw [if_neg (fun hc => h2 hc.1.2.2)]; rfl
  · next h1 => rw [if_neg (fun hc => h1 ⟨hc.1.1, hc.1.2.1⟩)]; rfl

theorem handleEvent_eq_tagReply (cfg : Config) (env : Env) (ev : InboundEvent)
    (t : String) (h : isTagEvent ev t) :
    handleEvent cfg env ev = tagReply cfg env ev.replyToken t := by
  obtain ⟨h1, h2, h3, h4, h5, h6, h7, h8⟩ := h
  unfold handleEvent
  rw [if_pos ⟨h1, h2⟩, if_pos h3]
  unfold handleTextMessage
  dsimp only
  rw [if_neg h4, if_neg (by rintro (h | h); exacts [h5 h, h6 h]), h7,
    if_pos (show jsTruthy (some t) = true by simp [jsTruthy, h8])]
  rfl

theorem handleEvent_eq_freeTextReply (cfg : Config) (env : Env)
    (ev : InboundEvent) (h : isFreeTextUserEvent ev) :
    handleEvent cfg env ev = freeTextReply cfg env ev.replyToken (jsTrim ev.text) := by
  obtain ⟨h1, h2, h3, h4, h5, h6, h7⟩ := h
  unfold handleEvent
  rw [if_pos ⟨h1, h2⟩, if_pos (Or.inl h3)]
  unfold handleTextMessage
  dsimp only
  rw [if_neg h4, if_neg (by rintro (h | h); exacts [h5 h, h6 h]),
    if_neg (by rw [h7]; exact Bool.false_ne_true), if_pos h3]

theorem tagKeywordLoop_skip (cfg : Config) (env : Env) (tok t kw : String)
    (ks : List String) (h : keywordHit env kw = false) :
    tagKeywordLoop cfg env tok t (kw :: ks) = tagKeywordLoop cfg env tok t ks := by
  unfold keywordHit at h
  simp only [tagKeywordLoop]
  rcases hs : env.search kw with e | photos
  · simp only [hs]
  · rw [hs] at h
    dsimp only at h
    by_cases hl : photos.length = 0
    · simp only [hs, hl, if_true, if_pos]
    · rw [if_neg hl] at h
      simp only [hs, hl, h, if_false, if_neg, Bool.false_eq_true]

theorem tagKeywordLoop_hit (cfg : Config) (env : Env) (tok t kw : String)
    (ks : List String) (h : keywordHit env kw = true) :
    tagKeywordLoop cfg env tok t (kw :: ks) =
      tagImageMessages tok t (hitUrl cfg env kw) := by
  unfold keywordHit at h
  simp only [tagKeywordLoop]
  unfold hitUrl
  rcases hs : env.search kw with e | photos
  · rw [hs] at h; dsimp only at h; exact absurd h Bool.false_ne_true
  · rw [hs] at h
    dsimp only at h
    by_cases hl : photos.length = 0
    · rw [if_pos hl] at h; exact absurd h Bool.false_ne_true
    · rw [if_neg hl] at h
      simp only [hs, hl, h, if_true, if_false, Bool.false_eq_true]

theorem tagKeywordLoop_firstHit (cfg : Config) (env : Env) (tok t kw : String)
    (ks₁ rest : List String) (hmiss : ∀ k ∈ ks₁, keywordHit env k = false)
    (hhit : keywordHit env kw = true) :
    tagKeywordLoop cfg env tok t (ks₁ ++ kw :: rest) =
      tagImageMessages tok t (hitUrl cfg env kw) := by
  induction ks₁ with
  | nil => exact tagKeywordLoop_hit cfg env tok t kw rest hhit
  | cons a as ih =>
    rw [List.cons_append,
      tagKeywordLoop_skip cfg env tok t a _ (hmiss a (List.mem_cons_self a as))]
    exact ih (fun k hk => hmiss k (List.mem_cons_of_mem a hk))

/-- C2: on the tag path, when the initial tag search returns zero
records, the expanded candidates are tried strictly in order; the reply
is built from the first candidate whose search returns a non-empty list
with a validly-prefixed selected record, transport errors and invalid
paths on earlier candidates only advance the loop, and candidates after
the first success do not affect the outcome. -/
theorem handleEvent_tag_keyword_first_success (cfg : Config) (env : Env)
    (ev : InboundEvent) (t kw : String) (ks₁ ks₂ : List String)
    (hev : isTagEvent ev t) (hsearch : env.search t = Except.ok [])
    (hks : tagKeywords env = ks₁ ++ kw :: ks₂)
    (hmiss : ∀ k ∈ ks₁, keywordHit env k = false)
    (hhit : keywordHit env kw = true) :
    handleEvent cfg env ev = tagImageMessages ev.replyToken t (hitUrl cfg env kw) ∧
    ∀ rest : List String,
      tagKeywordLoop cfg env ev.replyToken t (ks₁ ++ kw :: rest) =
        tagKeywordLoop cfg env ev.replyToken t (ks₁ ++ [kw]) := by
  constructor
  · rw [handleEvent_eq_tagReply cfg env ev t hev]
    unfold tagReply
    simp only [hsearch]
    rw [if_pos (show (List.length ([] : List PhotoRecord)) = 0 from rfl), hks]
    exact tagKeywordLoop_firstHit cfg env ev.replyToken t kw ks₁ ks₂ hmiss hhit
  · intro rest
    rw [tagKeywordLoop_firstHit cfg env ev.replyToken t kw ks₁ rest hmiss hhit,
      tagKeywordLoop_firstHit cfg env ev.replyToken t kw ks₁ [] hmiss hhit]

/-- Witness for C2: with the tag `風` searching empty, candidates
`天氣` (transport error) then `晴天` (one valid record), the dispatched
reply is the image built from `晴天`. -/
theorem handleEvent_tag_keyword_first_success_witness :
    handleEvent ⟨"http://cdn"⟩ envTagW evTagW =
      tagImageMessages "tok" "風" (hitUrl ⟨"http://cdn"⟩ envTagW "晴天") :=
  (handleEvent_tag_keyword_first_success ⟨"http://cdn"⟩ envTagW evTagW "風" "晴天"
    ["天氣"] [] (by decide) (by decide) (by decide) (by decide) (by decide)).1

/-- C3 (counterexample): in free-text mode the expansion is neither
truncated to 10 candidates nor filtered for containment of the
denylisted phrase: a raw model output with eleven candidates keeps all
eleven, including one that strictly contains `韓國瑜`. -/
theorem freeKeywords_denylist_counterexample :
    (freeKeywords envFreeKWW).length = 11 ∧
    "韓國瑜萬歲" ∈ freeKeywords envFreeKWW ∧
    containsSubstr "韓國瑜萬歲" "韓國瑜" = true := by
  refine ⟨by decide, by decide, by decide⟩

/-- C3 (amended): in free-text mode every produced candidate keyword is
non-empty after trimming and is not exactly equal to the denylisted
phrase `韓國瑜`; containment of the phrase is not checked and no
truncation to 10 candidates is applied. -/
theorem freeKeywords_amended (env : Env) (k : String)
    (hk : k ∈ freeKeywords env) : k ≠ "" ∧ k ≠ "韓國瑜" := by
  unfold freeKeywords at hk
  cases h : env.geminiFreeKeywords with
  | error e => rw [h] at hk; simp at hk
  | ok raw =>
    rw [h] at hk
    unfold parseFreeKeywords at hk
    dsimp only at hk
    split at hk
    · simp at hk
    · have := (List.mem_filter.mp hk).2
      simp only [Bool.and_eq_true, Bool.not_eq_true', decide_eq_false_iff_not] at this
      exact this

/-- Witness for the amended C3 at a concrete candidate list. -/
theorem freeKeywords_amended_witness :
    ("甲" : String) ≠ "" ∧ ("甲" : String) ≠ "韓國瑜" :=
  freeKeywords_amended envFreeKWW "甲" (by decide)

theorem tagKeywordLoop_exhaust (cfg : Config) (env : Env) (tok t : String)
    (ks : List String) (h : ∀ k ∈ ks, keywordHit env k = false) :
    tagKeywordLoop cfg env tok t ks = tagStyleFallback env tok t := by
  induction ks with
  | nil => rfl
  | cons a as ih =>
    rw [tagKeywordLoop_skip cfg env tok t a as (h a (List.mem_cons_self a as))]
    exact ih (fun k hk => h k (List.mem_cons_of_mem a hk))

/-- C4: on the tag path with an empty tag search and all expanded
keywords exhausted (the empty candidate list included), the reply is
the style responder's output: a single text payload equal to the
trimmed generated line when it is non-blank, and a single text payload
equal to the fixed template around the original tag on a blank
generation or a call error. -/
theorem handleEvent_tag_style_fallback (cfg : Config) (env : Env)
    (ev : InboundEvent) (t : String) (hev : isTagEvent ev t)
    (hsearch : env.search t = Except.ok [])
    (hmiss : ∀ k ∈ tagKeywords env, keywordHit env k = false) :
    handleEvent cfg env ev = tagStyleFallback env ev.replyToken t ∧
    (∀ raw, env.geminiTagStyle = Except.ok raw → jsTrim raw ≠ "" →
      handleEvent cfg env ev = [⟨ev.replyToken, [Msg.text (jsTrim raw)]⟩]) ∧
    (∀ raw, env.geminiTagStyle = Except.ok raw → jsTrim raw = "" →
      handleEvent cfg env ev =
        [⟨ev.replyToken, [Msg.text ("院長沒有在跟你" ++ t ++ "的啦！")]⟩]) ∧
    (∀ e, env.geminiTagStyle = Except.error e →
      handleEvent cfg env ev =
        [⟨ev.replyToken, [Msg.text ("院長沒有在跟你" ++ t ++ "的啦！")]⟩]) := by
  have hmain : handleEvent cfg env ev = tagStyleFallback env ev.replyToken t := by
    rw [handleEvent_eq_tagReply cfg env ev t hev]
    unfold tagReply
    simp only [hsearch]
    rw [if_pos (show (List.length ([] : List PhotoRecord)) = 0 from rfl)]
    exact tagKeywordLoop_exhaust cfg env ev.replyToken t (tagKeywords env) hmiss
  refine ⟨hmain, ?_, ?_, ?_⟩
  · intro raw hraw hnb
    rw [hmain]
    unfold tagStyleFallback styleLine
    simp only [hraw]
    rw [if_neg hnb]
  · intro raw hraw hb
    rw [hmain]
    unfold tagStyleFallback styleLine
    simp only [hraw]
    rw [if_pos hb]
  · intro e he
    rw [hmain]
    unfold tagStyleFallback styleLine
    simp only [he]

/-- Witness for C4: empty tag search, zero candidates, style line
` 金句 `; the reply is the trimmed line. -/
theorem handleEvent_tag_style_fallback_witness :
    handleEvent ⟨"https://cdn"⟩ envStyleW evTagW =
      [⟨"tok", [Msg.text "金句"]⟩] :=
  (handleEvent_tag_style_fallback ⟨"https://cdn"⟩ envStyleW evTagW "風"
    (by decide) (by decide) (by decide)).2.1 " 金句 " rfl (by decide)

theorem stringAppend_data (a b : String) : (a ++ b).data = a.data ++ b.data := by
  cases a; cases b; rfl

/-- C5: a transport failure on the initial tag search is terminal: the
reply is the single fixed text selected by the failure category and
templated with the tag, the result does not depend on any generative
oracle (the expansion fallback is not entered), and the three
category messages are pairwise distinct for every tag. -/
theorem handleEvent_tag_search_error_terminal (cfg : Config) (env : Env)
    (ev : InboundEvent) (t : String) (e : FetchError) (hev : isTagEvent ev t)
    (hsearch : env.search t = Except.error e) :
    handleEvent cfg env ev =
      [⟨ev.replyToken, [Msg.text (tagSearchErrorMessage t e)]⟩] ∧
    (∀ gk gs gfk gfs, handleEvent cfg
      { env with
        geminiTagKeywords := gk
        geminiTagStyle := gs
        geminiFreeKeywords := gfk
        geminiFreeStyle := gfs } ev =
      handleEvent cfg env ev) ∧
    (∀ s, tagSearchErrorMessage t (FetchError.errorStatus s) ≠
      tagSearchErrorMessage t FetchError.noResponse) ∧
    (∀ s, tagSearchErrorMessage t (FetchError.errorStatus s) ≠
      tagSearchErrorMessage t FetchError.other) ∧
    tagSearchErrorMessage t FetchError.noResponse ≠
      tagSearchErrorMessage t FetchError.other := by
  refine ⟨?_, ?_, ?_, ?_, ?_⟩
  · rw [handleEvent_eq_tagReply cfg env ev t hev]
    unfold tagReply
    simp only [hsearch]
  · intro gk gs gfk gfs
    rw [handleEvent_eq_tagReply cfg _ ev t hev,
      handleEvent_eq_tagReply cfg env ev t hev]
    unfold tagReply
    have h2 : ({ env with
        geminiTagKeywords := gk
        geminiTagStyle := gs
        geminiFreeKeywords := gfk
        geminiFreeStyle := gfs } : Env).search t = Except.error e := hsearch
    simp only [h2, hsearch]
  · intro s h
    simp only [tagSearchErrorMessage] at h
    have hd := congrArg String.data h
    rw [stringAppend_data, stringAppend_data] at hd
    exact absurd (List.append_cancel_left hd) (by decide)
  · intro s h
    simp only [tagSearchErrorMessage] at h
    have hd := congrArg String.data h
    rw [stringAppend_data, stringAppend_data] at hd
    exact absurd (List.append_cancel_left hd) (by decide)
  · intro h
    simp only [tagSearchErrorMessage] at h
    have hd := congrArg String.data h
    rw [stringAppend_data, stringAppend_data] at hd
    exact absurd (List.append_cancel_left hd) (by decide)

/-- Witness for C5: an error-status failure on the tag `風` yields the
category message and nothing else. -/
theorem handleEvent_tag_search_error_terminal_witness :
    handleEvent ⟨"https://cdn"⟩ envTagErrW evTagW =
      [⟨"tok", [Msg.text (tagSearchErrorMessage "風" (FetchError.errorStatus 500))]⟩] :=
  (handleEvent_tag_search_error_terminal ⟨"https://cdn"⟩ envTagErrW evTagW "風"
    (FetchError.errorStatus 500) (by decide) (by decide)).1

/-- C6: on the free-text individual-chat path a transport failure of
the direct-tag-guess search is swallowed: no error reply is dispatched
there and processing continues into the keyword-expansion stage,
exactly the continuation taken when the same search returns zero
records. -/
theorem handleEvent_free_direct_error_swallowed (cfg : Config) (env : Env)
    (ev : InboundEvent) (hev : isFreeTextUserEvent ev) :
    (∀ e, env.search (jsTrim ev.text) = Except.error e →
      handleEvent cfg env ev =
        freeKeywordStage cfg env ev.replyToken (jsTrim ev.text)) ∧
    (env.search (jsTrim ev.text) = Except.ok [] →
      handleEvent cfg env ev =
        freeKeywordStage cfg env ev.replyToken (jsTrim ev.text)) := by
  constructor
  · intro e he
    rw [handleEvent_eq_freeTextReply cfg env ev hev]
    unfold freeTextReply
    simp only [he]
    rw [if_pos (show (List.length ([] : List PhotoRecord)) = 0 from rfl)]
  · intro he
    rw [handleEvent_eq_freeTextReply cfg env ev hev]
    unfold freeTextReply
    simp only [he]
    rw [if_pos (show (List.length ([] : List PhotoRecord)) = 0 from rfl)]

/-- Witness for C6: a no-response failure on the direct search for
`hello` continues into the keyword stage. -/
theorem handleEvent_free_direct_error_swallowed_witness :
    handleEvent ⟨"https://cdn"⟩ envFreeErrW evFreeW =
      freeKeywordStage ⟨"https://cdn"⟩ envFreeErrW "tok" "hello" :=
  (handleEvent_free_direct_error_swallowed ⟨"https://cdn"⟩ envFreeErrW evFreeW
    (by decide)).1 FetchError.noResponse (by decide)

theorem validPath_exists {o : Option String} (h : validPath o = true) :
    ∃ p, o = some p ∧ jsStartsWith p "/Photos/" = true := by
  cases o with
  | none => exact absurd h Bool.false_ne_true
  | some p => exact ⟨p, rfl, h⟩

theorem imageCallsValid_nil (cfg : Config) : imageCallsValid cfg [] := by
  intro call hc
  simp at hc

theorem imageCallsValid_text (cfg : Config) (tok s : String) :
    imageCallsValid cfg [⟨tok, [Msg.text s]⟩] := by
  intro call hc msg hm u v him
  rw [List.mem_singleton] at hc
  subst hc
  rw [List.mem_singleton] at hm
  subst hm
  exact Msg.noConfusion him

theorem imageCallsValid_single_image (cfg : Config) (tok u p : String)
    (hp : jsStartsWith p "/Photos/" = true)
    (hu : u = secureUrl (cfg.photoBaseUrl ++ p)) :
    imageCallsValid cfg [⟨tok, [Msg.image u u]⟩] := by
  intro call hc msg hm a b him
  rw [List.mem_singleton] at hc
  subst hc
  rw [List.mem_singleton] at hm
  subst hm
  injection him with h1 h2
  subst h1
  subst h2
  exact ⟨rfl, p, hp, hu⟩

theorem imageCallsValid_recall (cfg : Config) (tok u p : String)
    (hp : jsStartsWith p "/Photos/" = true)
    (hu : u = secureUrl (cfg.photoBaseUrl ++ p)) :
    imageCallsValid cfg [⟨tok, [Msg.image u u, Msg.text recallSignText]⟩] := by
  intro call hc msg hm a b him
  rw [List.mem_singleton] at hc
  subst hc
  rcases List.mem_cons.mp hm with h1 | h1
  · subst h1
    injection him with h1 h2
    subst h1
    subst h2
    exact ⟨rfl, p, hp, hu⟩
  · rw [List.mem_singleton] at h1
    subst h1
    exact Msg.noConfusion him

theorem tagImageMessages_valid (cfg : Config) (tok t u p : String)
    (hp : jsStartsWith p "/Photos/" = true)
    (hu : u = secureUrl (cfg.photoBaseUrl ++ p)) :
    imageCallsValid cfg (tagImageMessages tok t u) := by
  unfold tagImageMessages
  split
  · exact imageCallsValid_recall cfg tok u p hp hu
  · exact imageCallsValid_single_image cfg tok u p hp hu

theorem greetingReply_valid (cfg : Config) (env : Env) (tok : String) :
    imageCallsValid cfg (greetingReply cfg env tok) := by
  unfold greetingReply
  rcases env.searchAll with e | photos
  · exact imageCallsValid_text _ _ _
  · dsimp only
    split
    · exact imageCallsValid_text _ _ _
    · split
      · next hv =>
        obtain ⟨p, hp, hpre⟩ := validPath_exists hv
        exact imageCallsValid_single_image cfg tok _ p hpre (by rw [hp]; rfl)
      · exact imageCallsValid_text _ _ _

theorem tagStyleFallback_valid (cfg : Config) (env : Env) (tok t : String) :
    imageCallsValid cfg (tagStyleFallback env tok t) := by
  unfold tagStyleFallback
  rcases styleLine env.geminiTagStyle with _ | l <;> exact imageCallsValid_text _ _ _

theorem freeStyleFallback_valid (cfg : Config) (env : Env) (tok m : String) :
    imageCallsValid cfg (freeStyleFallback env tok m) := by
  unfold freeStyleFallback
  rcases styleLine env.geminiFreeStyle with _ | l <;> exact imageCallsValid_text _ _ _

theorem tagKeywordLoop_valid (cfg : Config) (env : Env) (tok t : String)
    (ks : List String) : imageCallsValid cfg (tagKeywordLoop cfg env tok t ks) := by
  induction ks with
  | nil => exact tagStyleFallback_valid _ _ _ _
  | cons kw rest ih =>
    simp only [tagKeywordLoop]
    rcases hs : env.search kw with e | photos
    · exact ih
    · dsimp only
      split
      · exact ih
      · split
        · next hv =>
          obtain ⟨p, hp, hpre⟩ := validPath_exists hv
          exact tagImageMessages_valid cfg tok t _ p hpre (by rw [hp]; rfl)
        · exact ih

theorem tagReply_valid (cfg : Config) (env : Env) (tok t : String) :
    imageCallsValid cfg (tagReply cfg env tok t) := by
  unfold tagReply
  rcases env.search t with e | photos
  · exact imageCallsValid_text _ _ _
  · dsimp only
    split
    · exact tagKeywordLoop_valid _ _ _ _ _
    · split
      · next hv =>
        obtain ⟨p, hp, hpre⟩ := validPath_exists hv
        exact tagImageMessages_valid cfg tok t _ p hpre (by rw [hp]; rfl)
      · exact imageCallsValid_text _ _ _

theorem freeKeywordLoop_valid (cfg : Config) (env : Env) (tok m : String)
    (ks : List String) : imageCallsValid cfg (freeKeywordLoop cfg env tok m ks) := by
  induction ks with
  | nil => exact freeStyleFallback_valid _ _ _ _
  | cons kw rest ih =>
    simp only [freeKeywordLoop]
    rcases hs : env.search kw with e | photos
    · exact ih
    · dsimp only
      split
      · exact ih
      · split
        · next hv =>
          obtain ⟨p, hp, hpre⟩ := validPath_exists hv
          exact imageCallsValid_single_image cfg tok _ p hpre (by rw [hp]; rfl)
        · exact ih

theorem freeKeywordStage_valid (cfg : Config) (env : Env) (tok m : String) :
    imageCallsValid cfg (freeKeywordStage cfg env tok m) :=
  freeKeywordLoop_valid cfg env tok m (freeKeywords env)

theorem freeTextReply_valid (cfg : Config) (env : Env) (tok m : String) :
    imageCallsValid cfg (freeTextReply cfg env tok m) := by
  unfold freeTextReply
  dsimp only
  split
  · exact freeKeywordStage_valid _ _ _ _
  · split
    · next hv =>
      obtain ⟨p, hp, hpre⟩ := validPath_exists hv
      exact imageCallsValid_single_image cfg tok _ p hpre (by rw [hp]; rfl)
    · exact freeKeywordStage_valid _ _ _ _

theorem handleEvent_valid (cfg : Config) (env : Env) (ev : InboundEvent) :
    imageCallsValid cfg (handleEvent cfg env ev) := by
  unfold handleEvent
  split
  · split
    · unfold handleTextMessage
      dsimp only
      split
      · exact greetingReply_valid _ _ _
      · split
        · exact imageCallsValid_text _ _ _
        · split
          · exact tagReply_valid _ _ _ _
          · split
            · exact freeTextReply_valid _ _ _ _
            · exact imageCallsValid_nil _
    · exact imageCallsValid_nil _
  · exact imageCallsValid_nil _

/-- C7: on every reply path, a dispatched image payload carries equal
original and preview URLs built from a record path bearing the
`/Photos/` prefix; a record with an absent or wrongly prefixed path is
never dispatched as an image. -/
theorem handleEvent_image_path_safety (cfg : Config) (env : Env)
    (ev : InboundEvent) (call : ReplyCall) (msg : Msg) (u v : String)
    (hc : call ∈ handleEvent cfg env ev) (hm : msg ∈ call.messages)
    (him : msg = Msg.image u v) :
    v = u ∧ ∃ p, jsStartsWith p "/Photos/" = true ∧
      u = secureUrl (cfg.photoBaseUrl ++ p) :=
  handleEvent_valid cfg env ev call hc msg hm u v him

/-- Witness for C7 at the concrete greeting run. -/
theorem handleEvent_image_path_safety_witness :
    ("https://cdn/Photos/a.jpg" : String) = "https://cdn/Photos/a.jpg" ∧
    ∃ p, jsStartsWith p "/Photos/" = true ∧
      ("https://cdn/Photos/a.jpg" : String) =
        secureUrl ((⟨"https://cdn"⟩ : Config).photoBaseUrl ++ p) :=
  handleEvent_image_path_safety ⟨"https://cdn"⟩ baseEnv evGreetingW
    ⟨"tok", [Msg.image "https://cdn/Photos/a.jpg" "https://cdn/Photos/a.jpg"]⟩
    (Msg.image "https://cdn/Photos/a.jpg" "https://cdn/Photos/a.jpg")
    "https://cdn/Photos/a.jpg" "https://cdn/Photos/a.jpg"
    (by decide) (by decide) rfl

theorem singleMsg_call (tok : String) (m : Msg) :
    ∀ call ∈ [ReplyCall.mk tok [m]], call.messages.length = 1 := by
  intro call hc
  rw [List.mem_singleton] at hc
  subst hc
  rfl

theorem greetingReply_shape (cfg : Config) (env : Env) (tok : String) :
    ∀ call ∈ greetingReply cfg env tok, call.messages.length = 1 := by
  unfold greetingReply
  rcases env.searchAll with e | photos
  · exact singleMsg_call tok _
  · dsimp only
    split
    · exact singleMsg_call tok _
    · split
      · exact singleMsg_call tok _
      · exact singleMsg_call tok _

theorem quoteReply_shape (env : Env) (tok : String) :
    ∀ call ∈ quoteReply env tok, call.messages.length = 1 :=
  singleMsg_call tok _

theorem tagStyleFallback_shape (env : Env) (tok t : String) :
    ∀ call ∈ tagStyleFallback env tok t, call.messages.length = 1 := by
  unfold tagStyleFallback
  rcases styleLine env.geminiTagStyle with _ | l
  · exact singleMsg_call tok _
  · exact singleMsg_call tok _

theorem freeStyleFallback_shape (env : Env) (tok m : String) :
    ∀ call ∈ freeStyleFallback env tok m, call.messages.length = 1 := by
  unfold freeStyleFallback
  rcases styleLine env.geminiFreeStyle with _ | l
  · exact singleMsg_call tok _
  · exact singleMsg_call tok _

theorem freeKeywordLoop_shape (cfg : Config) (env : Env) (tok m : String)
    (ks : List String) :
    ∀ call ∈ freeKeywordLoop cfg env tok m ks, call.messages.length = 1 := by
  induction ks with
  | nil => exact freeStyleFallback_shape env tok m
  | cons kw rest ih =>
    simp only [freeKeywordLoop]
    rcases env.search kw with e | photos
    · exact ih
    · dsimp only
      split
      · exact ih
      · split
        · exact singleMsg_call tok _
        · exact ih

theorem freeTextReply_shape (cfg : Config) (env : Env) (tok m : String) :
    ∀ call ∈ freeTextReply cfg env tok m, call.messages.length = 1 := by
  unfold freeTextReply
  dsimp only
  split
  · exact freeKeywordLoop_shape cfg env tok m _
  · split
    · exact singleMsg_call tok _
    · exact freeKeywordLoop_shape cfg env tok m _

theorem tagImageMessages_shape (tok t u : String) :
    ∀ call ∈ tagImageMessages tok t u, call.messages.length = 1 ∨
      (t = "罷免" ∧ ∃ w, call.messages = [Msg.image w w, Msg.text recallSignText]) := by
  intro call hc
  unfold tagImageMessages at hc
  by_cases ht : t = "罷免"
  · rw [if_pos ht, List.mem_singleton] at hc
    subst hc
    exact Or.inr ⟨ht, u, rfl⟩
  · rw [if_neg ht, List.mem_singleton] at hc
    subst hc
    exact Or.inl rfl

theorem tagKeywordLoop_shape (cfg : Config) (env : Env) (tok t : String)
    (ks : List String) :
    ∀ call ∈ tagKeywordLoop cfg env tok t ks, call.messages.length = 1 ∨
      (t = "罷免" ∧ ∃ w, call.messages = [Msg.image w w, Msg.text recallSignText]) := by
  induction ks with
  | nil => exact fun call hc => Or.inl (tagStyleFallback_shape env tok t call hc)
  | cons kw rest ih =>
    simp only [tagKeywordLoop]
    rcases env.search kw with e | photos
    · exact ih
    · dsimp only
      split
      · exact ih
      · split
        · exact tagImageMessages_shape tok t _
        · exact ih

theorem tagReply_shape (cfg : Config) (env : Env) (tok t : String) :
    ∀ call ∈ tagReply cfg env tok t, call.messages.length = 1 ∨
      (t = "罷免" ∧ ∃ w, call.messages = [Msg.image w w, Msg.text recallSignText]) := by
  unfold tagReply
  rcases env.search t with e | photos
  · exact fun call hc => Or.inl (singleMsg_call tok _ call hc)
  · dsimp only
    split
    · exact tagKeywordLoop_shape cfg env tok t _
    · split
      · exact tagImageMessages_shape tok t _
      · exact fun call hc => Or.inl (singleMsg_call tok _ call hc)

/-- C8: a dispatched reply carries two payloads (image then the fixed
recall text) only when the original extracted tag is exactly `罷免`,
and every other reply is a single payload; on a successful tag search
the reply is built by the image rule keyed on the original tag, which
appends the fixed text iff the tag equals the sentinel exactly. -/
theorem handleEvent_recall_two_payloads_iff (cfg : Config) (env : Env)
    (ev : InboundEvent) :
    (∀ call ∈ handleEvent cfg env ev, call.messages.length = 1 ∨
      (tagToSearch (jsTrim ev.text) = some "罷免" ∧
        ∃ w, call.messages = [Msg.image w w, Msg.text recallSignText])) ∧
    (∀ t ps, isTagEvent ev t → env.search t = Except.ok ps → ps.length ≠ 0 →
      validPath (pick ps env.randTag).path = true →
      handleEvent cfg env ev = tagImageMessages ev.replyToken t
        (secureUrl (cfg.photoBaseUrl ++ (pick ps env.randTag).path.getD ""))) ∧
    (∀ tok t u, tagImageMessages tok t u =
      if t = "罷免"
        then [⟨tok, [Msg.image u u, Msg.text recallSignText]⟩]
        else [⟨tok, [Msg.image u u]⟩]) := by
  refine ⟨?_, ?_, fun tok t u => rfl⟩
  · intro call hc
    unfold handleEvent at hc
    split at hc
    · split at hc
      · unfold handleTextMessage at hc
        dsimp only at hc
        split at hc
        · exact Or.inl (greetingReply_shape cfg env ev.replyToken call hc)
        · split at hc
          · exact Or.inl (quoteReply_shape env ev.replyToken call hc)
          · split at hc
            · next h3 =>
              rcases tagReply_shape cfg env ev.replyToken _ call hc with hl | ⟨ht, w, hw⟩
              · exact Or.inl hl
              · refine Or.inr ⟨?_, w, hw⟩
                cases hopt : tagToSearch (jsTrim ev.text) with
                | none =>
                  rw [hopt] at h3
                  exact absurd h3 (by simp [jsTruthy])
                | some s =>
                  rw [hopt] at ht
                  exact congrArg some (by simpa using ht)
            · split at hc
              · exact Or.inl (freeTextReply_shape cfg env ev.replyToken _ call hc)
              · simp at hc
      · simp at hc
    · simp at hc
  · intro t ps hev hsearch hne hv
    rw [handleEvent_eq_tagReply cfg env ev t hev]
    unfold tagReply
    simp only [hsearch]
    rw [if_neg hne]
    rw [if_pos hv]

set_option maxRecDepth 10000 in
/-- Witness for C8: the tag `罷免` with one valid record yields the
image plus the fixed recall text. -/
theorem handleEvent_recall_two_payloads_iff_witness :
    handleEvent ⟨"https://cdn"⟩ envRecallW evRecallW =
      [⟨"tok", [Msg.image "https://cdn/Photos/a.jpg" "https://cdn/Photos/a.jpg",
        Msg.text recallSignText]⟩] := by
  have h := (handleEvent_recall_two_payloads_iff ⟨"https://cdn"⟩ envRecallW
      evRecallW).2.1 "罷免" [samplePhoto] (by decide) (by decide) (by decide)
      (by decide)
  rw [h]
  decide

theorem isPrefixOf_append_self (l t : List Char) : l.isPrefixOf (l ++ t) = true := by
  induction l with
  | nil => rw [List.nil_append]; cases t <;> rfl
  | cons a as ih => simp [List.isPrefixOf, ih]

theorem isPrefixOf_exists {l s : List Char} (h : l.isPrefixOf s = true) :
    ∃ t, s = l ++ t := by
  induction l generalizing s with
  | nil => exact ⟨s, rfl⟩
  | cons a as ih =>
    cases s with
    | nil => cases h
    | cons b bs =>
      simp only [List.isPrefixOf, Bool.and_eq_true, beq_iff_eq] at h
      obtain ⟨hab, hpre⟩ := h
      subst hab
      obtain ⟨t, ht⟩ := ih hpre
      exact ⟨t, by rw [ht]; rfl⟩

theorem replaceFirst_of_self (pat repl rest : List Char) :
    replaceFirstChars pat repl (pat ++ rest) = repl ++ rest := by
  cases pat with
  | nil =>
    cases rest with
    | nil => simp [replaceFirstChars]
    | cons c cs => simp [replaceFirstChars, List.isPrefixOf]
  | cons a as =>
    rw [List.cons_append]
    unfold replaceFirstChars
    rw [← List.cons_append, if_pos (isPrefixOf_append_self (a :: as) rest),
      List.drop_left]

theorem secureUrl_startsWith_https (base p : String)
    (h : jsStartsWith base "https://" = true ∨
      jsStartsWith base "http://" = true) :
    jsStartsWith (secureUrl (base ++ p)) "https://" = true := by
  unfold secureUrl
  by_cases hc : jsStartsWith (base ++ p) "https://" = true
  · rw [if_pos hc]; exact hc
  · rw [if_neg hc]
    rcases h with h1 | h2
    · exfalso
      apply hc
      unfold jsStartsWith at h1 ⊢
      obtain ⟨r, hr⟩ := isPrefixOf_exists h1
      rw [stringAppend_data, hr, List.append_assoc]
      exact isPrefixOf_append_self _ _
    · unfold jsStartsWith at h2 ⊢
      obtain ⟨r, hr⟩ := isPrefixOf_exists h2
      unfold jsReplaceFirst
      show ("https://".data).isPrefixOf
        (replaceFirstChars ("http://".data) ("https://".data) (base ++ p).data) = true
      rw [stringAppend_data, hr, List.append_assoc, replaceFirst_of_self]
      exact isPrefixOf_append_self _ _

theorem handleEvent_eq_greeting (cfg : Config) (env : Env) (ev : InboundEvent)
    (h : isGreetingEvent ev) :
    handleEvent cfg env ev = greetingReply cfg env ev.replyToken := by
  obtain ⟨⟨h1, h2, h3⟩, h4⟩ := h
  unfold handleEvent
  rw [if_pos ⟨h1, h2⟩, if_pos h3]
  unfold handleTextMessage
  dsimp only
  rw [if_pos h4]

/-- C9: for the greeting command with a non-empty catalog and a
validly-prefixed selected record, the reply is exactly one image whose
URL is `secureUrl (photoBaseUrl ++ path)` and, for an http(s)
configured base URL, starts with the secure-transport prefix. -/
theorem handleEvent_greeting_image_secure (cfg : Config) (env : Env)
    (ev : InboundEvent) (ps : List PhotoRecord) (p : String)
    (hev : isGreetingEvent ev) (hall : env.searchAll = Except.ok ps)
    (hne : ps.length ≠ 0) (hp : (pick ps env.randAll).path = some p)
    (hv : jsStartsWith p "/Photos/" = true)
    (hscheme : jsStartsWith cfg.photoBaseUrl "https://" = true ∨
      jsStartsWith cfg.photoBaseUrl "http://" = true) :
    handleEvent cfg env ev = [⟨ev.replyToken,
      [Msg.image (secureUrl (cfg.photoBaseUrl ++ p))
        (secureUrl (cfg.photoBaseUrl ++ p))]⟩] ∧
    jsStartsWith (secureUrl (cfg.photoBaseUrl ++ p)) "https://" = true := by
  constructor
  · rw [handleEvent_eq_greeting cfg env ev hev]
    unfold greetingReply
    simp only [hall]
    rw [if_neg hne,
      if_pos (show validPath (pick ps env.randAll).path = true by rw [hp]; exact hv)]
    rw [hp]
    rfl
  · exact secureUrl_startsWith_https cfg.photoBaseUrl p hscheme

/-- Witness for C9: a non-secure base URL is rewritten to the secure
prefix on the greeting image. -/
theorem handleEvent_greeting_image_secure_witness :
    handleEvent ⟨"http://cdn"⟩ baseEnv evGreetingW = [⟨"tok",
      [Msg.image (secureUrl ("http://cdn" ++ "/Photos/a.jpg"))
        (secureUrl ("http://cdn" ++ "/Photos/a.jpg"))]⟩] ∧
    jsStartsWith (secureUrl ("http://cdn" ++ "/Photos/a.jpg")) "https://" = true :=
  handleEvent_greeting_image_secure ⟨"http://cdn"⟩ baseEnv evGreetingW
    [samplePhoto] "/Photos/a.jpg" (by decide) rfl (by decide) (by decide)
    (by decide) (Or.inr (by decide))

/-- C10: a supported text message whose trimmed content starts with a
lead-in prefix followed only by whitespace extracts the empty tag,
which is falsy, so the event is never routed to the tag-search path: an
individual chat handles it as free text and a group or room source is
suppressed with no reply. -/
theorem handleEvent_empty_tag_routed_free (cfg : Config) (env : Env)
    (ev : InboundEvent) (hsupp : isTextFromSupported ev)
    (hpre : jsStartsWith (jsTrim ev.text) "院長，" = true ∨
      jsStartsWith (jsTrim ev.text) "院長 " = true)
    (hempty : jsTrim (jsDrop (jsTrim ev.text) 3) = "") :
    tagToSearch (jsTrim ev.text) = some "" ∧
    (ev.sourceType = "user" →
      handleEvent cfg env ev =
        freeTextReply cfg env ev.replyToken (jsTrim ev.text)) ∧
    (ev.sourceType ≠ "user" → handleEvent cfg env ev = []) := by
  obtain ⟨h1, h2, h3⟩ := hsupp
  have hm1 : jsTrim ev.text ≠ "院長好" := by
    intro h
    rw [h] at hpre
    rcases hpre with h | h <;> exact absurd h (by decide)
  have hm2 : jsTrim ev.text ≠ "院長，金句" := by
    intro h
    rw [h] at hempty
    exact absurd hempty (by decide)
  have hm3 : jsTrim ev.text ≠ "院長，語錄" := by
    intro h
    rw [h] at hempty
    exact absurd hempty (by decide)
  have htag : tagToSearch (jsTrim ev.text) = some "" := by
    unfold tagToSearch
    rcases hpre with hp1 | hp2
    · rw [if_pos hp1, hempty]
    · by_cases hb : jsStartsWith (jsTrim ev.text) "院長，" = true
      · rw [if_pos hb, hempty]
      · rw [if_neg hb, if_pos hp2, hempty]
  refine ⟨htag, ?_, ?_⟩
  · intro hu
    unfold handleEvent
    rw [if_pos ⟨h1, h2⟩, if_pos h3]
    unfold handleTextMessage
    dsimp only
    rw [if_neg hm1, if_neg (by rintro (h | h); exacts [hm2 h, hm3 h]), htag,
      if_neg (show ¬jsTruthy (some "") = true by decide), if_pos hu]
  · intro hu
    unfold handleEvent
    rw [if_pos ⟨h1, h2⟩, if_pos h3]
    unfold handleTextMessage
    dsimp only
    rw [if_neg hm1, if_neg (by rintro (h | h); exacts [hm2 h, hm3 h]), htag,
      if_neg (show ¬jsTruthy (some "") = true by decide), if_neg hu]

/-- Witness for C10: a room message that is the lead-in followed by
spaces is suppressed with no reply. -/
theorem handleEvent_empty_tag_routed_free_witness :
    handleEvent ⟨"https://cdn"⟩ baseEnv evEmptyTagW = [] :=
  (handleEvent_empty_tag_routed_free ⟨"https://cdn"⟩ baseEnv evEmptyTagW
    (by decide) (Or.inl (by decide)) (by decide)).2.2 (by decide)
